import Mathlib

/-!
Verification of the source-synchronization and canonicalization pipeline.

This file gives a shallow embedding of the pipeline's workers:
the sync worker (`processSyncSource`), the master scheduler
(`runMasterScheduler`), the discovery worker's ranking/enqueue phase,
the canonicalization worker's merge and transaction, the notification
worker (`processNotification`), and the health/backpressure gate
(`areWorkersOnline`, `isQueueHealthy`).  External effects (database
lookups, the URL allow-list check, the scraper call, the queue client,
the coordination store) are passed in as explicit inputs; the control
flow and every state update mirror the source files.
-/

namespace MangaPipeline

/-- JavaScript falsiness for optional strings: `null`/`undefined` (here
`none`) and the empty string are falsy. -/
def isEmptyJS : Option String → Bool
  | none => true
  | some s => s == ""

/-- JavaScript `a || b` on optional strings: yields `b` when `a` is falsy. -/
def orElseJS (a b : Option String) : Option String :=
  if isEmptyJS a then b else a

/-- JavaScript `toLowerCase()`, modelled character by character (the
strings compared in this pipeline — source names and titles — are
handled per character, which matches `toLowerCase` on ASCII). -/
def jsToLowerCase (s : String) : String :=
  String.mk (s.data.map Char.toLower)

/-- Helper for `firstOccurrences`: keep the keys not yet seen, in order,
extending the seen set as we go. -/
def firstOccurrencesFrom (seen : List String) : List String → List String
  | [] => []
  | k :: ks =>
      if seen.contains k then firstOccurrencesFrom seen ks
      else k :: firstOccurrencesFrom (seen ++ [k]) ks

/-- Insertion-order deduplication of a list of keys, keeping the first
occurrence of each key.  This is the order produced by a JavaScript
`Set` or by the keys of a JavaScript `Map` built by repeated insertion. -/
def firstOccurrences (l : List String) : List String :=
  firstOccurrencesFrom [] l

/-! ## Data model: Source Record and Chapter -/

/-- One row of the `seriesSource` table (a Source Record): the binding of
one external source to a canonical series.  Timestamps are milliseconds
since the epoch. -/
structure SeriesSource where
  id : String
  series_id : String
  source_name : String
  source_id : String
  source_url : String
  source_title : Option String
  sync_priority : String
  next_check_at : Option Int
  failure_count : Nat
  last_checked_at : Option Int
  last_success_at : Option Int
  source_chapter_count : Int
  match_confidence : Option Int
  cover_url : Option String
  cover_updated_at : Option Int
deriving DecidableEq, Repr

/-- One chapter scraped from an external source
(`ScrapedChapter` in `lib/scrapers`). -/
structure ScrapedChapter where
  chapterNumber : ℚ
  chapterTitle : Option String
  chapterUrl : String
  publishedAt : Option Int
deriving DecidableEq, Repr

/-- One row of the `chapter` table. -/
structure Chapter where
  series_id : String
  series_source_id : String
  chapter_number : ℚ
  chapter_title : Option String
  chapter_url : String
  published_at : Option Int
deriving DecidableEq, Repr

/-- The `ChapterCreateManyInput` row built by the sync worker for one
scraped chapter (`chapter.chapterTitle || null` maps the empty string
to `null`; a present `publishedAt` date is always truthy). -/
def chapterRow (seriesId sourceRowId : String) (c : ScrapedChapter) : Chapter :=
  { series_id := seriesId
    series_source_id := sourceRowId
    chapter_number := c.chapterNumber
    chapter_title := if isEmptyJS c.chapterTitle then none else c.chapterTitle
    chapter_url := c.chapterUrl
    published_at := c.publishedAt }

/-- Chapter numbers present in a chapter store. -/
def chapterNumbers (l : List Chapter) : List ℚ :=
  l.map (·.chapter_number)

/-- Insertion of one row under `skipDuplicates: true` over the unique
key (source record, chapter number): a row whose chapter number is
already present is skipped, otherwise it is appended and counted. -/
def insertSkipStep (acc : List Chapter × Nat) (r : Chapter) :
    List Chapter × Nat :=
  if r.chapter_number ∈ chapterNumbers acc.1 then acc
  else (acc.1 ++ [r], acc.2 + 1)

/-- `createMany` with `skipDuplicates: true`: rows are inserted in
order through `insertSkipStep` (so a duplicate of a row earlier in the
same batch is also skipped).  Returns the new store and the count of
rows actually inserted, as reported by the database. -/
def createManySkipDuplicates (store : List Chapter) (rows : List Chapter) :
    List Chapter × Nat :=
  rows.foldl insertSkipStep (store, 0)

/-- The atomic transaction of the sync worker: read the existing chapter
numbers for this Source Record, keep only scraped chapters whose number
is not yet present, bulk-insert them with duplicate skipping, and update
the Source Record (`last_checked_at`, `last_success_at`, chapter count
incremented by the number actually inserted, `failure_count` reset to 0).
Chapter numbers are compared through their decimal string keys, modelled
here as equality on the rational values. -/
def syncTransaction (src : SeriesSource) (scraped : List ScrapedChapter)
    (store : List Chapter) (now : Int) :
    List Chapter × Nat × SeriesSource :=
  let existingNumbers := chapterNumbers store
  let newChaptersData :=
    (scraped.filter (fun c => decide (c.chapterNumber ∉ existingNumbers))).map
      (chapterRow src.series_id src.id)
  let inserted := createManySkipDuplicates store newChaptersData
  (inserted.1, inserted.2,
    { src with
      last_checked_at := some now
      last_success_at := some now
      source_chapter_count := src.source_chapter_count + (inserted.2 : Int)
      failure_count := 0 })

/-! ## The sync worker -/

/-- Circuit-breaker threshold (`MAX_CONSECUTIVE_FAILURES`). -/
def MAX_CONSECUTIVE_FAILURES : Nat := 5

/-- Keys of the `scrapers` record: the sources with a configured scraper. -/
def scraperKeys : List String := ["mangapark", "mangadex"]

/-- Whether `scrapers[source_name.toLowerCase()]` is defined. -/
def scraperDefined (name : String) : Bool :=
  scraperKeys.contains (jsToLowerCase name)

/-- Outcome of the `scraper.scrapeSeries` call: either the scraped
chapter list, or an exception.  For an exception the worker computes
`error instanceof ScraperError ? error.isRetryable : true`, so we record
whether the error was a `ScraperError` and, if so, its flag. -/
inductive ScrapeResult where
  | ok (chapters : List ScrapedChapter)
  | err (isScraperError : Bool) (errRetryable : Bool)
deriving DecidableEq, Repr

/-- The retryability the worker assigns to a scrape exception. -/
def scrapeErrRetryable (isScraperError errRetryable : Bool) : Bool :=
  if isScraperError then errRetryable else true

/-- External inputs of one run of the sync worker: the payload-schema
validation outcome, the result of `validateSourceUrl` on the record's
URL, the scraper outcome, whether the notification enqueue succeeds,
and the current time. -/
structure SyncEnv where
  payloadOk : Bool
  urlValid : Bool
  scrape : ScrapeResult
  notifyOk : Bool
  now : Int
deriving Repr

/-- Result of one run of the sync worker: the (possibly updated) Source
Record, the chapter store for that record, whether the scraper/network
was invoked, whether a notification job was enqueued, and whether the
handler threw (a thrown handler is what the job queue retries). -/
structure SyncRun where
  source : Option SeriesSource
  chapters : List Chapter
  networkCalled : Bool
  notificationEnqueued : Bool
  threw : Bool
deriving Repr

/-- The sync worker `processSyncSource`, step for step:
payload validation (throws on failure), record lookup (missing record
returns), circuit breaker (demote to COLD, push `next_check_at` 24h
out, return), URL allow-list check (increment `failure_count`, stamp
`last_checked_at`, return), scraper lookup (return without touching the
record), then the scrape followed by the atomic transaction; a
notification job is enqueued when at least one chapter was inserted,
and any exception after the scraper lookup lands in the catch block,
which increments `failure_count`, stamps `last_checked_at`, and
re-throws only retryable errors. -/
def processSyncSource (env : SyncEnv) (src? : Option SeriesSource)
    (store : List Chapter) : SyncRun :=
  if !env.payloadOk then
    { source := src?, chapters := store, networkCalled := false
      notificationEnqueued := false, threw := true }
  else
    match src? with
    | none =>
        { source := none, chapters := store, networkCalled := false
          notificationEnqueued := false, threw := false }
    | some src =>
        if MAX_CONSECUTIVE_FAILURES ≤ src.failure_count then
          { source := some { src with
              sync_priority := "COLD"
              next_check_at := some (env.now + 24 * 60 * 60 * 1000) }
            chapters := store, networkCalled := false
            notificationEnqueued := false, threw := false }
        else if !env.urlValid then
          { source := some { src with
              failure_count := src.failure_count + 1
              last_checked_at := some env.now }
            chapters := store, networkCalled := false
            notificationEnqueued := false, threw := false }
        else if !scraperDefined src.source_name then
          { source := some src, chapters := store, networkCalled := false
            notificationEnqueued := false, threw := false }
        else
          match env.scrape with
          | .ok scraped =>
              let r := syncTransaction src scraped store env.now
              if 0 < r.2.1 then
                if env.notifyOk then
                  { source := some r.2.2, chapters := r.1
                    networkCalled := true, notificationEnqueued := true
                    threw := false }
                else
                  { source := some { r.2.2 with
                      failure_count := r.2.2.failure_count + 1
                      last_checked_at := some env.now }
                    chapters := r.1, networkCalled := true
                    notificationEnqueued := false, threw := true }
              else
                { source := some r.2.2, chapters := r.1
                  networkCalled := true, notificationEnqueued := false
                  threw := false }
          | .err isScraperError errRetryable =>
              { source := some { src with
                  failure_count := src.failure_count + 1
                  last_checked_at := some env.now }
                chapters := store, networkCalled := true
                notificationEnqueued := false
                threw := scrapeErrRetryable isScraperError errRetryable }

/-- Result of iterating the sync worker over a list of runs. -/
structure MultiRun where
  source : Option SeriesSource
  chapters : List Chapter
  networkAny : Bool
deriving Repr

/-- Iterate the sync worker: each run starts from the record and chapter
store left by the previous one.  `networkAny` records whether any run
invoked the scraper. -/
def runSyncs : List SyncEnv → Option SeriesSource → List Chapter → MultiRun
  | [], s, ch => { source := s, chapters := ch, networkAny := false }
  | e :: es, s, ch =>
      let r := processSyncSource e s ch
      let rest := runSyncs es r.source r.chapters
      { source := rest.source, chapters := rest.chapters
        networkAny := r.networkCalled || rest.networkAny }

/-! ## The notification worker -/

/-- One row of the `notification` table.  `created_at` is the server
timestamp of the insert. -/
structure Notification where
  user_id : String
  type : String
  title : String
  message : String
  series_id : String
  meta_source_id : String
  meta_chapter_count : Int
  meta_job_id : String
  created_at : Int
deriving DecidableEq, Repr

/-- Payload of a notification job, plus the queue job id that the worker
records in the notification metadata. -/
structure NotifPayload where
  seriesId : String
  sourceId : String
  newChapterCount : Int
  jobId : String
deriving DecidableEq, Repr

/-- External inputs of one run of the notification worker: the
payload-schema validation outcome, the series lookup result (its title,
or `none` when the series is gone), the user ids subscribed to the
series with `notify_new_chapters` enabled, and the current time. -/
structure NotifEnv where
  payloadOk : Bool
  seriesTitle : Option String
  subscribers : List String
  now : Int
deriving Repr

/-- The trailing deduplication window of the notification worker, in
milliseconds (5 minutes). -/
def NOTIF_DEDUP_WINDOW_MS : Int := 5 * 60 * 1000

/-- The notification row built for one user. -/
def mkNotification (p : NotifPayload) (title : String) (now : Int)
    (u : String) : Notification :=
  { user_id := u
    type := "NEW_CHAPTER"
    title := "New Chapter Available"
    message := toString p.newChapterCount ++ " new chapter" ++
      (if 1 < p.newChapterCount then "s" else "") ++ " for \"" ++ title ++ "\"!"
    series_id := p.seriesId
    meta_source_id := p.sourceId
    meta_chapter_count := p.newChapterCount
    meta_job_id := p.jobId
    created_at := now }

/-- Users who already have a `NEW_CHAPTER` notification for this series
created inside the trailing deduplication window
(`created_at ≥ now - 5min`). -/
def alreadyNotifiedUsers (env : NotifEnv) (store : List Notification)
    (p : NotifPayload) : List String :=
  (store.filter (fun n =>
    n.series_id == p.seriesId && n.type == "NEW_CHAPTER" &&
      decide (env.now - NOTIF_DEDUP_WINDOW_MS ≤ n.created_at))).map (·.user_id)

/-- The batch the worker bulk-inserts: one notification per subscriber
not excluded by the deduplication window. -/
def notifToCreate (env : NotifEnv) (store : List Notification)
    (p : NotifPayload) (title : String) : List Notification :=
  (env.subscribers.filter
      (fun u => !(alreadyNotifiedUsers env store p).contains u)).map
    (mkNotification p title env.now)

/-- The notification worker `processNotification`: validate the payload
(invalid payloads return without throwing), look up the series (missing
series returns), load the subscribers (none returns), exclude users who
already have a `NEW_CHAPTER` notification for this series created inside
the trailing 5-minute window, and bulk-insert one notification per
remaining user.  Returns the new notification store and whether the
handler threw (it never does). -/
def processNotification (env : NotifEnv) (store : List Notification)
    (p : NotifPayload) : List Notification × Bool :=
  if !env.payloadOk then (store, false)
  else
    match env.seriesTitle with
    | none => (store, false)
    | some title =>
        if env.subscribers.isEmpty then (store, false)
        else
          let notificationsToCreate := notifToCreate env store p title
          if notificationsToCreate.isEmpty then (store, false)
          else (store ++ notificationsToCreate, false)

/-- The notifications created by one run of the worker (the rows the
run appended to the store). -/
def notifCreated (env : NotifEnv) (store : List Notification)
    (p : NotifPayload) : List Notification :=
  (processNotification env store p).1.drop store.length

/-! ## The master scheduler -/

/-- One sync job built by the scheduler: BullMQ job name, payload,
deduplication key (`jobId`) and priority rank. -/
structure SyncJob where
  name : String
  seriesSourceId : String
  jobId : String
  priority : Nat
deriving DecidableEq, Repr

/-- The `SYNC_INTERVALS` table (milliseconds): HOT = 15 minutes,
WARM = 2 hours, COLD = 24 hours; other strings are not keys. -/
def SYNC_INTERVALS (p : String) : Option Int :=
  if p == "HOT" then some (15 * 60 * 1000)
  else if p == "WARM" then some (2 * 60 * 60 * 1000)
  else if p == "COLD" then some (24 * 60 * 60 * 1000)
  else none

/-- Whether a Source Record is due: `next_check_at` is null or ≤ now. -/
def dueForCheck (now : Int) (s : SeriesSource) : Bool :=
  match s.next_check_at with
  | none => true
  | some t => decide (t ≤ now)

/-- Queue priority rank assigned by the scheduler:
HOT = 1, WARM = 2, anything else = 3. -/
def tierPriorityRank (p : String) : Nat :=
  if p == "HOT" then 1 else if p == "WARM" then 2 else 3

/-- The batch bucket a selected record's id is pushed into: its own tier
when that tier is a key of `updatesByPriority`, else COLD. -/
def bucketTier (p : String) : String :=
  if p == "HOT" || p == "WARM" || p == "COLD" then p else "COLD"

/-- Ids of the selected records grouped into one tier bucket, in
selection order. -/
def bucketIds (sel : List SeriesSource) (tier : String) : List String :=
  (sel.filter (fun s => bucketTier s.sync_priority == tier)).map (·.id)

/-- One scheduler run (`runMasterScheduler`): select up to 50 due
records, build one sync job per record keyed
`sync-<sourceId>-<runTimestamp>` with the tier's priority rank, submit
them as one batch, then persist `next_check_at = now + tierInterval` in
one batched update per non-empty tier bucket (the concurrent
`updateMany` calls touch disjoint id sets and are modelled as applied
in bucket order).  Returns the submitted jobs and the updated table. -/
def runMasterScheduler (sources : List SeriesSource) (now : Int) :
    List SyncJob × List SeriesSource :=
  let sel := (sources.filter (dueForCheck now)).take 50
  if sel.isEmpty then ([], sources)
  else
    let jobs := sel.map (fun s =>
      { name := "sync-" ++ s.id
        seriesSourceId := s.id
        jobId := "sync-" ++ s.id ++ "-" ++ toString now
        priority := tierPriorityRank s.sync_priority })
    let upd := ["HOT", "WARM", "COLD"].foldl
      (fun db tier =>
        let ids := bucketIds sel tier
        if ids.isEmpty then db
        else
          let interval := (SYNC_INTERVALS tier).getD (24 * 60 * 60 * 1000)
          db.map (fun s =>
            if ids.contains s.id then
              { s with next_check_at := some (now + interval) }
            else s))
      sources
    (jobs, upd)

/-- Modelled from the spec: the scheduler's contract, written directly
from the specification's words — every selected due source (at most 50)
yields exactly one job keyed `sync-<sourceId>-<runTimestamp>` with
priority rank HOT = 1, WARM = 2, 3 otherwise, and its `next_check_at`
becomes now plus its tier interval (HOT 15 minutes, WARM 2 hours, COLD
and unknown tiers 24 hours); unselected records are untouched. -/
def schedulerSpecInterval (p : String) : Int :=
  if p == "HOT" then 15 * 60 * 1000
  else if p == "WARM" then 2 * 60 * 60 * 1000
  else 24 * 60 * 60 * 1000

/-- Modelled from the spec: the whole scheduler run as a per-record
description (see `schedulerSpecInterval`). -/
def schedulerSpec (sources : List SeriesSource) (now : Int) :
    List SyncJob × List SeriesSource :=
  let sel := (sources.filter (dueForCheck now)).take 50
  (sel.map (fun s =>
      { name := "sync-" ++ s.id
        seriesSourceId := s.id
        jobId := "sync-" ++ s.id ++ "-" ++ toString now
        priority := tierPriorityRank s.sync_priority }),
   sources.map (fun s =>
      if (sel.map (·.id)).contains s.id then
        { s with next_check_at := some (now + schedulerSpecInterval s.sync_priority) }
      else s))

/-! ## The discovery worker: deduplication, ranking, enqueue -/

/-- One candidate collected from the external catalog by the discovery
worker (the fields carried into the canonicalization payload). -/
structure Candidate where
  mangadex_id : String
  title : String
  alternative_titles : List String
  description : String
  status : String
  type : String
  genres : List String
  content_rating : Option String
  cover_url : Option String
deriving DecidableEq, Repr

/-- Deduplication by external id with JavaScript `Map` semantics
(`new Map(candidates.map(c => [c.mangadex_id, c])).values()`): keys keep
the position of their first occurrence, and each key's value is the last
candidate inserted under it. -/
def mapDedupe (cs : List Candidate) : List Candidate :=
  (firstOccurrences (cs.map (·.mangadex_id))).filterMap
    (fun k => cs.reverse.find? (fun c => c.mangadex_id == k))

/-- A candidate after ranking: confidence pinned to 100 and a score that
preserves the external catalog's order
(`score = uniqueCandidates.length - index`). -/
structure RankedCandidate where
  cand : Candidate
  confidence : Nat
  score : Nat
deriving DecidableEq, Repr

/-- The ranking pass of the discovery worker: deduplicate by external id
and assign each remaining candidate the descending positional score. -/
def rankCandidates (cs : List Candidate) : List RankedCandidate :=
  let u := mapDedupe cs
  u.enum.map (fun ic =>
    { cand := ic.2, confidence := 100, score := u.length - ic.1 })

/-- One canonicalization job enqueued by the discovery worker. -/
structure CanonJob where
  jobId : String
  priority : Nat
  source_name : String
  source_id : String
  title : String
deriving DecidableEq, Repr

/-- The enqueue loop of the discovery worker: one canonicalization job
per ranked candidate, keyed `canon_mangadex_<externalId>`, with priority
1 for a `user_search` trigger and 10 otherwise. -/
def checkSourceJobs (cs : List Candidate) (trigger : Option String) :
    List CanonJob :=
  (rankCandidates cs).map (fun r =>
    { jobId := "canon_mangadex_" ++ r.cand.mangadex_id
      priority := if trigger == some "user_search" then 1 else 10
      source_name := "mangadex"
      source_id := r.cand.mangadex_id
      title := r.cand.title })

/-! ## The canonicalization worker -/

/-- One row of the `series` table (a canonical Series). -/
structure Series where
  id : String
  title : String
  mangadex_id : Option String
  alternative_titles : List String
  description : Option String
  cover_url : Option String
  type : String
  status : Option String
  genres : List String
  content_rating : Option String
deriving DecidableEq, Repr

/-- Payload of a canonicalization job (`CanonicalizeJobData`, with the
destructuring defaults `alternative_titles = []` and `genres = []`
already applied). -/
structure CanonData where
  title : String
  source_name : String
  source_id : String
  source_url : String
  mangadex_id : Option String
  alternative_titles : List String
  description : Option String
  cover_url : Option String
  type : String
  status : Option String
  genres : List String
  content_rating : Option String
  confidence : Option Int
deriving DecidableEq, Repr

/-- The database state the canonicalization worker touches. -/
structure CanonDB where
  series : List Series
  sources : List SeriesSource
deriving DecidableEq, Repr

/-- The match cascade, first match wins: (1) by external catalog id when
the candidate carries a truthy one, (2) by existing Source Record for
the exact (source name, source-native id) pair, following its series
link, (3) by case-insensitive exact title equality. -/
def matchSeries (db : CanonDB) (inc : CanonData) : Option Series :=
  let byMangadex :=
    if !isEmptyJS inc.mangadex_id then
      db.series.find? (fun s => s.mangadex_id == inc.mangadex_id)
    else none
  match byMangadex with
  | some s => some s
  | none =>
    let bySource :=
      (db.sources.find? (fun s =>
        s.source_name == inc.source_name && s.source_id == inc.source_id)).bind
        (fun link => db.series.find? (fun s => s.id == link.series_id))
    match bySource with
    | some s => some s
    | none =>
        db.series.find? (fun s => jsToLowerCase s.title == jsToLowerCase inc.title)

/-- The update data the worker writes to a matched series: external
catalog id, description and status fill only an empty slot; the cover is
replaced only when the candidate has one and the series has none or the
candidate comes from the highest-trust source; the genre set is replaced
wholesale only when currently empty; the merged alternate titles replace
the old set; the content rating takes the incoming value whenever that
is non-empty (`content_rating || series.content_rating`). -/
def mergeSeriesUpdate (series : Series) (inc : CanonData)
    (mergedAltTitles : List String) : Series :=
  let shouldUpdateCover :=
    !isEmptyJS inc.cover_url &&
      (isEmptyJS series.cover_url || inc.source_name == "mangadex")
  { series with
    mangadex_id := orElseJS series.mangadex_id inc.mangadex_id
    description := orElseJS series.description inc.description
    cover_url := if shouldUpdateCover then inc.cover_url else series.cover_url
    alternative_titles := mergedAltTitles
    status := orElseJS series.status inc.status
    genres := if 0 < series.genres.length then series.genres else inc.genres
    content_rating := orElseJS inc.content_rating series.content_rating }

/-- The series row created when no match is found. -/
def createSeries (inc : CanonData) (newId : String)
    (mergedAltTitles : List String) : Series :=
  { id := newId
    title := inc.title
    mangadex_id := inc.mangadex_id
    alternative_titles := mergedAltTitles
    description := inc.description
    cover_url := inc.cover_url
    type := inc.type
    status := inc.status
    genres := inc.genres
    content_rating := inc.content_rating }

/-- The Source Record upsert keyed by (source name, source-native id):
update the series link, URL, title, confidence and — only when a cover
was supplied — the cover fields of an existing row, or insert a new row
with `sync_priority = COLD`. -/
def upsertSource (sources : List SeriesSource) (inc : CanonData)
    (seriesId : String) (now : Int) : List SeriesSource :=
  if (sources.find? (fun s =>
      s.source_name == inc.source_name && s.source_id == inc.source_id)).isSome
  then
    sources.map (fun s =>
      if s.source_name == inc.source_name && s.source_id == inc.source_id then
        { s with
          series_id := seriesId
          source_url := inc.source_url
          source_title := some inc.title
          match_confidence := inc.confidence
          cover_url := if isEmptyJS inc.cover_url then s.cover_url else inc.cover_url
          cover_updated_at :=
            if isEmptyJS inc.cover_url then s.cover_updated_at else some now }
      else s)
  else
    sources ++ [{
      id := "src-" ++ inc.source_name ++ "-" ++ inc.source_id
      series_id := seriesId
      source_name := inc.source_name
      source_id := inc.source_id
      source_url := inc.source_url
      source_title := some inc.title
      sync_priority := "COLD"
      next_check_at := none
      failure_count := 0
      last_checked_at := none
      last_success_at := none
      source_chapter_count := 0
      match_confidence := inc.confidence
      cover_url := if isEmptyJS inc.cover_url then none else inc.cover_url
      cover_updated_at := if isEmptyJS inc.cover_url then none else some now }]

/-- The single transaction of the canonicalization worker: run the match
cascade, merge into the matched series or create a new one (`newId` is
the database-generated id for the create case), then upsert the Source
Record.  Returns the new database, the resolved series, and the
created-vs-updated flag. -/
def canonTransaction (db : CanonDB) (inc : CanonData) (newId : String)
    (now : Int) : CanonDB × Series × Bool :=
  match matchSeries db inc with
  | some s =>
      let mergedAltTitles := firstOccurrences
        (s.alternative_titles ++ inc.alternative_titles ++ [inc.title])
      let merged := mergeSeriesUpdate s inc mergedAltTitles
      let series' := db.series.map (fun t => if t.id == s.id then merged else t)
      ({ series := series'
         sources := upsertSource db.sources inc merged.id now }, merged, false)
  | none =>
      let mergedAltTitles := firstOccurrences
        (inc.alternative_titles ++ [inc.title])
      let created := createSeries inc newId mergedAltTitles
      ({ series := db.series ++ [created]
         sources := upsertSource db.sources inc created.id now }, created, true)

/-- External inputs of one canonicalization run: whether the
`series.available` broadcast send succeeds. -/
structure CanonEnv where
  broadcastOk : Bool
deriving DecidableEq, Repr

/-- Result of one canonicalization run. -/
structure CanonRun where
  db : CanonDB
  series : Series
  created : Bool
  broadcastEmitted : Bool
  threw : Bool
deriving DecidableEq, Repr

/-- The canonicalization worker `processCanonicalize`: the transaction,
then the fire-and-forget `series.available` broadcast whose failure is
caught and logged — the handler never throws because of it and the
committed database state is untouched. -/
def processCanonicalize (env : CanonEnv) (db : CanonDB) (inc : CanonData)
    (newId : String) (now : Int) : CanonRun :=
  let r := canonTransaction db inc newId now
  { db := r.1, series := r.2.1, created := r.2.2
    broadcastEmitted := env.broadcastOk, threw := false }

/-! ## The health/backpressure gate and the search request path -/

/-- Worker-liveness predicate `areWorkersOnline`: false when the
coordination store is unreachable, false when the heartbeat key is
absent, and otherwise true exactly when the heartbeat timestamp is
younger than 15 seconds. -/
def areWorkersOnline (redisReady : Bool) (heartbeat : Option Int)
    (now : Int) : Bool :=
  if !redisReady then false
  else
    match heartbeat with
    | none => false
    | some lastBeat => decide (now - lastBeat < 15000)

/-- Queue-health predicate `isQueueHealthy`: the combined
waiting + active + delayed count is below the threshold. -/
def isQueueHealthy (waiting active delayed : Nat) (threshold : Nat) : Bool :=
  decide (waiting + active + delayed < threshold)

/-- Coarse status of the search response on the discovery-eligible path. -/
inductive SearchStatus where
  | resolving
  | resolvingUnavailable
  | complete
deriving DecidableEq, Repr

/-- The part of the search response relevant to the gate: the coarse
status, the already-known local results returned with it, and whether a
discovery job was enqueued. -/
structure SearchResponse where
  status : SearchStatus
  results : List String
  enqueued : Bool
deriving DecidableEq, Repr

/-- The discovery-gating segment of the search route, for a request
eligible to trigger discovery (non-noise query, first page): the
per-query cooldown short-circuits with `complete`; then the worker
heartbeat and the discovery queue depth (threshold 5000) are consulted,
and if either predicate fails the route enqueues nothing and returns
`resolving_unavailable` with the local results; otherwise it enqueues
(a queue error degrades to `resolving_unavailable` as well). -/
def searchDiscoveryGate (cooldownActive redisReady : Bool)
    (heartbeat : Option Int) (now : Int) (waiting active delayed : Nat)
    (enqueueOk : Bool) (localResults : List String) : SearchResponse :=
  if cooldownActive then
    { status := .complete, results := localResults, enqueued := false }
  else if !areWorkersOnline redisReady heartbeat now ||
      !isQueueHealthy waiting active delayed 5000 then
    { status := .resolvingUnavailable, results := localResults, enqueued := false }
  else if enqueueOk then
    { status := .resolving, results := localResults, enqueued := true }
  else
    { status := .resolvingUnavailable, results := localResults, enqueued := false }

/-! ## Queue retry policy -/

/-- Retry budget of the sync queue (`attempts: 3` in the queue
definition). -/
def syncQueueAttempts : Nat := 3

/-- Whether the job queue re-enqueues a job after this attempt: the
handler threw and attempts remain. -/
def queueWillRetry (attemptsMade attempts : Nat) (threw : Bool) : Bool :=
  threw && decide (attemptsMade < attempts)

/-! ## Concrete inputs used by witnesses and counterexamples -/

/-- A healthy Source Record used in concrete evaluations. -/
def demoSource : SeriesSource :=
  { id := "ss1"
    series_id := "se1"
    source_name := "mangadex"
    source_id := "md-abc"
    source_url := "https://mangadex.org/title/abc"
    source_title := some "Demo"
    sync_priority := "HOT"
    next_check_at := none
    failure_count := 0
    last_checked_at := none
    last_success_at := none
    source_chapter_count := 1
    match_confidence := some 100
    cover_url := none
    cover_updated_at := none }

/-! ## Lemmas about the duplicate-skipping insert -/

theorem chapterNumbers_append (l₁ l₂ : List Chapter) :
    chapterNumbers (l₁ ++ l₂) = chapterNumbers l₁ ++ chapterNumbers l₂ := by
  simp [chapterNumbers]

theorem chapterNumbers_cons (r : Chapter) (l : List Chapter) :
    chapterNumbers (r :: l) = r.chapter_number :: chapterNumbers l := rfl

theorem chapterNumbers_nil : chapterNumbers [] = [] := rfl

theorem insertSkip_fold_prefix (rows : List Chapter) :
    ∀ (st : List Chapter) (n : Nat),
      ∃ rest, (rows.foldl insertSkipStep (st, n)).1 = st ++ rest ∧
        ∀ c ∈ rest, c ∈ rows ∧ c.chapter_number ∉ chapterNumbers st := by
  induction rows with
  | nil => intro st n; exact ⟨[], by simp⟩
  | cons r rows ih =>
      intro st n
      by_cases h : r.chapter_number ∈ chapterNumbers st
      · obtain ⟨rest, hr, hmem⟩ := ih st n
        refine ⟨rest, ?_, fun c hc => ⟨List.mem_cons_of_mem _ (hmem c hc).1,
          (hmem c hc).2⟩⟩
        simpa [insertSkipStep, h] using hr
      · obtain ⟨rest, hr, hmem⟩ := ih (st ++ [r]) (n + 1)
        refine ⟨r :: rest, ?_, ?_⟩
        · simpa [insertSkipStep, h] using hr
        · intro c hc
          rcases List.mem_cons.mp hc with rfl | hc'
          · exact ⟨List.mem_cons_self _ _, h⟩
          · refine ⟨List.mem_cons_of_mem _ (hmem c hc').1, fun hmemst => ?_⟩
            exact (hmem c hc').2 (by simp [chapterNumbers_append, hmemst])

theorem insertSkip_fold_numbers (rows : List Chapter) :
    ∀ (st : List Chapter) (n : Nat) (q : ℚ),
      q ∈ chapterNumbers (rows.foldl insertSkipStep (st, n)).1 ↔
        q ∈ chapterNumbers st ∨ q ∈ chapterNumbers rows := by
  induction rows with
  | nil => intro st n q; simp [chapterNumbers]
  | cons r rows ih =>
      intro st n q
      by_cases h : r.chapter_number ∈ chapterNumbers st
      · have step : (r :: rows).foldl insertSkipStep (st, n) =
            rows.foldl insertSkipStep (st, n) := by
          simp [insertSkipStep, h]
        rw [step, ih]
        simp only [chapterNumbers_cons, List.mem_cons]
        constructor
        · rintro (hq | hq)
          · exact Or.inl hq
          · exact Or.inr (Or.inr hq)
        · rintro (hq | rfl | hq)
          · exact Or.inl hq
          · exact Or.inl h
          · exact Or.inr hq
      · have step : (r :: rows).foldl insertSkipStep (st, n) =
            rows.foldl insertSkipStep (st ++ [r], n + 1) := by
          simp [insertSkipStep, h]
        rw [step, ih]
        simp only [chapterNumbers_append, List.mem_append, chapterNumbers_cons,
          chapterNumbers_nil, List.mem_cons, List.mem_singleton,
          List.not_mem_nil, or_false]
        tauto

theorem insertSkip_fold_nodup (rows : List Chapter) :
    ∀ (st : List Chapter) (n : Nat),
      (chapterNumbers st).Nodup →
        (chapterNumbers (rows.foldl insertSkipStep (st, n)).1).Nodup := by
  induction rows with
  | nil => intro st n h; simpa using h
  | cons r rows ih =>
      intro st n h
      by_cases hmem : r.chapter_number ∈ chapterNumbers st
      · have step : (r :: rows).foldl insertSkipStep (st, n) =
            rows.foldl insertSkipStep (st, n) := by
          simp [insertSkipStep, hmem]
        rw [step]; exact ih st n h
      · have step : (r :: rows).foldl insertSkipStep (st, n) =
            rows.foldl insertSkipStep (st ++ [r], n + 1) := by
          simp [insertSkipStep, hmem]
        rw [step]
        refine ih _ _ ?_
        rw [chapterNumbers_append]
        refine List.nodup_append.mpr ⟨h, List.nodup_singleton _, ?_⟩
        intro a ha hb
        rw [chapterNumbers_cons, chapterNumbers_nil, List.mem_singleton] at hb
        exact hmem (hb ▸ ha)

/-- Claim C1.  For every Source Record and every scraped chapter list,
running the sync worker's reconcile transaction twice on the same list
yields exactly the same stored chapter set as running it once (the
second run inserts nothing); chapters whose numbers already exist are
silently skipped — the stored chapters are preserved verbatim, with the
new rows appended after them — only genuinely new chapter numbers are
inserted, each originating from the scraped list, the insert keeps the
(source record, chapter number) uniqueness invariant, and the resulting
number set is exactly the union of the stored and scraped numbers. -/
theorem sync_reconcile_idempotent (src : SeriesSource)
    (scraped : List ScrapedChapter) (store : List Chapter) (now now' : Int)
    (hnd : (chapterNumbers store).Nodup) :
    (syncTransaction src scraped (syncTransaction src scraped store now).1 now').1
      = (syncTransaction src scraped store now).1 ∧
    (syncTransaction src scraped (syncTransaction src scraped store now).1 now').2.1
      = 0 ∧
    (∃ rest, (syncTransaction src scraped store now).1 = store ++ rest ∧
      ∀ c ∈ rest, c.chapter_number ∉ chapterNumbers store ∧
        ∃ s ∈ scraped, c = chapterRow src.series_id src.id s) ∧
    (chapterNumbers (syncTransaction src scraped store now).1).Nodup ∧
    (∀ q, q ∈ chapterNumbers (syncTransaction src scraped store now).1 ↔
      q ∈ chapterNumbers store ∨ q ∈ scraped.map (·.chapterNumber)) := by
  have hrow_num : ∀ s : ScrapedChapter,
      (chapterRow src.series_id src.id s).chapter_number = s.chapterNumber := by
    intro s; rfl
  -- the batch built from the scraped list on top of `store`
  set rows := (scraped.filter
      (fun c => decide (c.chapterNumber ∉ chapterNumbers store))).map
      (chapterRow src.series_id src.id) with hrows
  have hrows_nums : ∀ q, q ∈ chapterNumbers rows ↔
      q ∈ scraped.map (·.chapterNumber) ∧ q ∉ chapterNumbers store := by
    intro q
    simp only [hrows, chapterNumbers, List.map_map, List.mem_map,
      Function.comp, hrow_num, List.mem_filter, decide_eq_true_eq]
    constructor
    · rintro ⟨c, ⟨hc, hnotin⟩, rfl⟩
      exact ⟨⟨c, hc, rfl⟩, by simpa [chapterNumbers] using hnotin⟩
    · rintro ⟨⟨c, hc, rfl⟩, hnotin⟩
      exact ⟨c, ⟨hc, by simpa [chapterNumbers] using hnotin⟩, rfl⟩
  have hstore1 : (syncTransaction src scraped store now).1 =
      (rows.foldl insertSkipStep (store, 0)).1 := by
    simp [syncTransaction, createManySkipDuplicates, hrows]
  have hnums : ∀ q, q ∈ chapterNumbers (syncTransaction src scraped store now).1 ↔
      q ∈ chapterNumbers store ∨ q ∈ scraped.map (·.chapterNumber) := by
    intro q
    rw [hstore1, insertSkip_fold_numbers]
    constructor
    · rintro (h | h)
      · exact Or.inl h
      · exact Or.inr ((hrows_nums q).mp h).1
    · rintro (h | h)
      · exact Or.inl h
      · by_cases hs : q ∈ chapterNumbers store
        · exact Or.inl hs
        · exact Or.inr ((hrows_nums q).mpr ⟨h, hs⟩)
  -- second run filters everything away
  have hfilter2 : scraped.filter
      (fun c => decide (c.chapterNumber ∉
        chapterNumbers (syncTransaction src scraped store now).1)) = [] := by
    rw [List.filter_eq_nil_iff]
    intro c hc
    simp only [decide_eq_true_eq, not_not]
    exact (hnums c.chapterNumber).mpr (Or.inr (List.mem_map_of_mem _ hc))
  have hsecond : (syncTransaction src scraped
        (syncTransaction src scraped store now).1 now').1 =
          (syncTransaction src scraped store now).1 ∧
      (syncTransaction src scraped
        (syncTransaction src scraped store now).1 now').2.1 = 0 := by
    generalize hS : (syncTransaction src scraped store now).1 = S at hfilter2 ⊢
    constructor
    · simp only [syncTransaction]
      rw [hfilter2]
      simp [createManySkipDuplicates]
    · simp only [syncTransaction]
      rw [hfilter2]
      simp [createManySkipDuplicates]
  refine ⟨hsecond.1, hsecond.2, ?_, ?_, hnums⟩
  · obtain ⟨rest, hpre, hmem⟩ := insertSkip_fold_prefix rows store 0
    refine ⟨rest, by rw [hstore1, hpre], fun c hc => ?_⟩
    obtain ⟨hcrows, hcnot⟩ := hmem c hc
    refine ⟨hcnot, ?_⟩
    simp only [hrows, List.mem_map, List.mem_filter, decide_eq_true_eq] at hcrows
    obtain ⟨s, ⟨hs, _⟩, rfl⟩ := hcrows
    exact ⟨s, hs, rfl⟩
  · rw [hstore1]; exact insertSkip_fold_nodup rows store 0 hnd

/-- Witness for `sync_reconcile_idempotent` at a concrete input: a store
holding chapter 1 and a scrape returning chapters 1, 1.5 and 2. -/
theorem sync_reconcile_idempotent_witness :
    ((chapterNumbers [chapterRow "se1" "ss1"
        { chapterNumber := 1, chapterTitle := none,
          chapterUrl := "u1", publishedAt := none }]).Nodup) ∧
    (∀ q, q ∈ chapterNumbers (syncTransaction demoSource
        [{ chapterNumber := 1, chapterTitle := none,
           chapterUrl := "u1", publishedAt := none },
         { chapterNumber := 3 / 2, chapterTitle := some "Extra",
           chapterUrl := "u15", publishedAt := none },
         { chapterNumber := 2, chapterTitle := none,
           chapterUrl := "u2", publishedAt := none }]
        [chapterRow "se1" "ss1"
          { chapterNumber := 1, chapterTitle := none,
            chapterUrl := "u1", publishedAt := none }] 1000).1 ↔
      q ∈ chapterNumbers [chapterRow "se1" "ss1"
          { chapterNumber := 1, chapterTitle := none,
            chapterUrl := "u1", publishedAt := none }] ∨
      q ∈ [{ chapterNumber := (1 : ℚ), chapterTitle := none,
             chapterUrl := "u1", publishedAt := none },
           { chapterNumber := 3 / 2, chapterTitle := some "Extra",
             chapterUrl := "u15", publishedAt := none },
           { chapterNumber := 2, chapterTitle := none,
             chapterUrl := "u2", publishedAt := none }].map
        (ScrapedChapter.chapterNumber)) :=
  ⟨by decide, (sync_reconcile_idempotent demoSource _ _ 1000 2000
      (by decide)).2.2.2.2⟩

/-! ## The circuit breaker (C2) -/

/-- A Source Record with the circuit breaker open. -/
def demoSrcBroken : SeriesSource := { demoSource with failure_count := 5 }

/-- A sync environment for a fully successful run with no new chapters. -/
def demoEnvOk : SyncEnv :=
  { payloadOk := true, urlValid := true, scrape := .ok [], notifyOk := true
    now := 1000 }

theorem circuit_breaker_iterate (envs : List SyncEnv) :
    ∀ (src : SeriesSource) (store : List Chapter),
      MAX_CONSECUTIVE_FAILURES ≤ src.failure_count →
      (∀ e ∈ envs, e.payloadOk = true) →
      (runSyncs envs (some src) store).networkAny = false ∧
      ∃ src', (runSyncs envs (some src) store).source = some src' ∧
        src'.failure_count = src.failure_count := by
  induction envs with
  | nil =>
      intro src store _ _
      exact ⟨rfl, src, rfl, rfl⟩
  | cons e es ih =>
      intro src store hfc hall
      have hp : e.payloadOk = true := hall e (List.mem_cons_self _ _)
      have hstep : processSyncSource e (some src) store =
          { source := some { src with
              sync_priority := "COLD"
              next_check_at := some (e.now + 24 * 60 * 60 * 1000) }
            chapters := store, networkCalled := false
            notificationEnqueued := false, threw := false } := by
        simp [processSyncSource, hp, hfc]
      have htail := ih { src with
          sync_priority := "COLD"
          next_check_at := some (e.now + 24 * 60 * 60 * 1000) } store hfc
        (fun e' he' => hall e' (List.mem_cons_of_mem _ he'))
      simp only [runSyncs, hstep]
      exact ⟨by simpa using htail.1, htail.2⟩

/-- Claim C2.  For every sync job on a Source Record whose
`failure_count` is at least 5 (the circuit-breaker threshold), the
worker performs no scraper call, sets `sync_priority` to COLD, pushes
`next_check_at` to now plus 24 hours, and returns without throwing (so
the queue performs no retry); and over any sequence of subsequent valid
sync runs the scraper is never invoked and `failure_count` keeps its
value — it is never reset, since no successful sync can happen. -/
theorem circuit_breaker_no_network (env : SyncEnv) (src : SeriesSource)
    (store : List Chapter)
    (hfc : MAX_CONSECUTIVE_FAILURES ≤ src.failure_count)
    (hp : env.payloadOk = true) :
    (processSyncSource env (some src) store).networkCalled = false ∧
    (processSyncSource env (some src) store).threw = false ∧
    (processSyncSource env (some src) store).source = some { src with
        sync_priority := "COLD"
        next_check_at := some (env.now + 24 * 60 * 60 * 1000) } ∧
    (∀ envs : List SyncEnv, (∀ e ∈ envs, e.payloadOk = true) →
      (runSyncs envs (some src) store).networkAny = false ∧
      ∃ src', (runSyncs envs (some src) store).source = some src' ∧
        src'.failure_count = src.failure_count) := by
  refine ⟨?_, ?_, ?_, fun envs hall => circuit_breaker_iterate envs src store hfc hall⟩
  · simp [processSyncSource, hp, hfc]
  · simp [processSyncSource, hp, hfc]
  · simp [processSyncSource, hp, hfc]

/-- Witness for `circuit_breaker_no_network` on a record with
`failure_count = 5`. -/
theorem circuit_breaker_no_network_witness :
    (MAX_CONSECUTIVE_FAILURES ≤ demoSrcBroken.failure_count ∧
      demoEnvOk.payloadOk = true) ∧
    ((processSyncSource demoEnvOk (some demoSrcBroken) []).networkCalled = false ∧
      (processSyncSource demoEnvOk (some demoSrcBroken) []).threw = false ∧
      (processSyncSource demoEnvOk (some demoSrcBroken) []).source =
        some { demoSrcBroken with
          sync_priority := "COLD"
          next_check_at := some (demoEnvOk.now + 24 * 60 * 60 * 1000) } ∧
      (∀ envs : List SyncEnv, (∀ e ∈ envs, e.payloadOk = true) →
        (runSyncs envs (some demoSrcBroken) []).networkAny = false ∧
        ∃ src', (runSyncs envs (some demoSrcBroken) []).source = some src' ∧
          src'.failure_count = demoSrcBroken.failure_count)) :=
  ⟨⟨by decide, rfl⟩,
    circuit_breaker_no_network demoEnvOk demoSrcBroken [] (by decide) rfl⟩

/-! ## Failure-count accounting (C5) -/

theorem syncTransaction_failure_count (src : SeriesSource)
    (scraped : List ScrapedChapter) (store : List Chapter) (now : Int) :
    (syncTransaction src scraped store now).2.2.failure_count = 0 := by
  simp [syncTransaction]

/-- Modelled from the amended claim: the value of `failure_count` after
one sync run — unchanged on an invalid payload, an open circuit breaker
or a missing scraper configuration; incremented by one on an invalid
source URL or a fetch/parse exception; reset to 0 by a fully successful
sync, except that a failing notification enqueue after a committed
transaction leaves it at 1 (reset, then incremented by the error
handler). -/
def failureCountAfter (env : SyncEnv) (src : SeriesSource)
    (store : List Chapter) : Nat :=
  if !env.payloadOk then src.failure_count
  else if MAX_CONSECUTIVE_FAILURES ≤ src.failure_count then src.failure_count
  else if !env.urlValid then src.failure_count + 1
  else if !scraperDefined src.source_name then src.failure_count
  else
    match env.scrape with
    | .ok scraped =>
        if 0 < (syncTransaction src scraped store env.now).2.1 ∧
            env.notifyOk = false then 1 else 0
    | .err _ _ => src.failure_count + 1

/-- Claim C5 (amended).  The failure counter after any sync run is
exactly `failureCountAfter`: reset to 0 precisely by a fully successful
sync (commit plus successful notification step), incremented by exactly
1 on an invalid source URL or a fetch/parse exception, left at 1 when a
notification enqueue fails after a committed transaction, and — against
the original claim — left unchanged when the scraper configuration is
missing (that branch returns without touching the record). -/
theorem failure_count_characterization (env : SyncEnv) (src : SeriesSource)
    (store : List Chapter) :
    (processSyncSource env (some src) store).source.map
        SeriesSource.failure_count =
      some (failureCountAfter env src store) := by
  cases hpo : env.payloadOk with
  | false => simp [processSyncSource, failureCountAfter, hpo]
  | true =>
    by_cases hfc : MAX_CONSECUTIVE_FAILURES ≤ src.failure_count
    · simp [processSyncSource, failureCountAfter, hpo, hfc]
    · cases hurl : env.urlValid with
      | false => simp [processSyncSource, failureCountAfter, hpo, hfc, hurl]
      | true =>
        cases hscr : scraperDefined src.source_name with
        | false => simp [processSyncSource, failureCountAfter, hpo, hfc, hurl, hscr]
        | true =>
          cases hscrape : env.scrape with
          | err isScraperError errRetryable =>
              simp [processSyncSource, failureCountAfter, hpo, hfc, hurl, hscr,
                hscrape]
          | ok scraped =>
              by_cases hins : 0 < (syncTransaction src scraped store env.now).2.1
              · cases hnot : env.notifyOk with
                | false =>
                    simp [processSyncSource, failureCountAfter, hpo, hfc, hurl,
                      hscr, hscrape, hins, hnot, syncTransaction_failure_count]
                | true =>
                    simp [processSyncSource, failureCountAfter, hpo, hfc, hurl,
                      hscr, hscrape, hins, hnot, syncTransaction_failure_count]
              · simp [processSyncSource, failureCountAfter, hpo, hfc, hurl,
                  hscr, hscrape, hins, syncTransaction_failure_count]

/-- A Source Record whose source name has no configured scraper. -/
def demoSrcNoScraper : SeriesSource :=
  { demoSource with source_name := "webtoons" }

/-- Counterexample to claim C5 as stated: a sync attempt that fails
because no scraper is configured for the source name leaves
`failure_count` completely unchanged (the record is not updated at
all), instead of increasing it by exactly 1. -/
theorem failure_count_missing_scraper_counterexample :
    demoEnvOk.payloadOk = true ∧
    demoEnvOk.urlValid = true ∧
    demoSrcNoScraper.failure_count < MAX_CONSECUTIVE_FAILURES ∧
    scraperDefined demoSrcNoScraper.source_name = false ∧
    (processSyncSource demoEnvOk (some demoSrcNoScraper) []).source =
      some demoSrcNoScraper ∧
    ¬ ((processSyncSource demoEnvOk (some demoSrcNoScraper) []).source.map
        SeriesSource.failure_count =
      some (demoSrcNoScraper.failure_count + 1)) := by
  refine ⟨rfl, rfl, by decide, by decide, by decide, by decide⟩

/-! ## Downstream fire-and-forget failures (C4) -/

/-- A scraped chapter used in concrete evaluations. -/
def demoScraped1 : ScrapedChapter :=
  { chapterNumber := 1, chapterTitle := some "The Beginning"
    chapterUrl := "https://mangadex.org/chapter/abc-c1", publishedAt := some 500 }

/-- A sync environment whose scrape succeeds with one chapter but whose
notification enqueue fails. -/
def demoEnvNotifyFail : SyncEnv :=
  { payloadOk := true, urlValid := true, scrape := .ok [demoScraped1]
    notifyOk := false, now := 1000 }

theorem syncTransaction_preserves (src : SeriesSource)
    (scraped : List ScrapedChapter) (store : List Chapter) (now : Int) :
    ∀ c ∈ store, c ∈ (syncTransaction src scraped store now).1 := by
  intro c hc
  have hstore1 : (syncTransaction src scraped store now).1 =
      (((scraped.filter
          (fun c => decide (c.chapterNumber ∉ chapterNumbers store))).map
          (chapterRow src.series_id src.id)).foldl insertSkipStep (store, 0)).1 := by
    simp [syncTransaction, createManySkipDuplicates]
  obtain ⟨rest, hpre, _⟩ := insertSkip_fold_prefix
    ((scraped.filter
        (fun c => decide (c.chapterNumber ∉ chapterNumbers store))).map
        (chapterRow src.series_id src.id)) store 0
  rw [hstore1, hpre]
  exact List.mem_append_left _ hc

/-- Counterexample to claim C4 as stated: a sync run whose transaction
commits one new chapter and whose notification enqueue then fails keeps
the committed chapter, but the job's success IS turned into a failure —
the handler increments `failure_count` to 1 and re-throws, so the queue
retries the job. -/
theorem sync_notify_failure_counterexample :
    demoEnvNotifyFail.notifyOk = false ∧
    (processSyncSource demoEnvNotifyFail (some demoSource) []).chapters =
      [chapterRow demoSource.series_id demoSource.id demoScraped1] ∧
    (processSyncSource demoEnvNotifyFail (some demoSource) []).notificationEnqueued
      = false ∧
    (processSyncSource demoEnvNotifyFail (some demoSource) []).threw = true ∧
    (processSyncSource demoEnvNotifyFail (some demoSource) []).source.map
      SeriesSource.failure_count = some 1 := by
  refine ⟨rfl, by decide, by decide, by decide, by decide⟩

/-- Claim C4 (amended).  A failure of the downstream fire-and-forget
step never unwinds the committed upstream result: after a sync run
whose notification enqueue fails, the chapter store is exactly the
committed transaction result and every previously stored chapter
survives; and a failed `series.available` broadcast leaves the
canonicalization database exactly as the committed transaction wrote it
and never fails the job.  However — against the original claim — the
sync worker's notification-enqueue failure lands in the generic error
handler: when chapters were inserted the job throws (so the queue
retries it) and `failure_count` ends at 1. -/
theorem downstream_failure_isolation (env : SyncEnv) (src : SeriesSource)
    (store : List Chapter) (scraped : List ScrapedChapter)
    (hp : env.payloadOk = true) (hurl : env.urlValid = true)
    (hscr : scraperDefined src.source_name = true)
    (hfc : src.failure_count < MAX_CONSECUTIVE_FAILURES)
    (hok : env.scrape = .ok scraped) (hnot : env.notifyOk = false) :
    ((processSyncSource env (some src) store).chapters =
      (syncTransaction src scraped store env.now).1 ∧
    (∀ c ∈ store, c ∈ (processSyncSource env (some src) store).chapters) ∧
    (0 < (syncTransaction src scraped store env.now).2.1 →
      (processSyncSource env (some src) store).threw = true ∧
      (processSyncSource env (some src) store).source.map
        SeriesSource.failure_count = some 1)) ∧
    (∀ (db : CanonDB) (inc : CanonData) (newId : String) (now : Int),
      (processCanonicalize ⟨false⟩ db inc newId now).db =
        (processCanonicalize ⟨true⟩ db inc newId now).db ∧
      (processCanonicalize ⟨false⟩ db inc newId now).threw = false ∧
      (processCanonicalize ⟨false⟩ db inc newId now).broadcastEmitted = false) := by
  have hfc' : ¬ MAX_CONSECUTIVE_FAILURES ≤ src.failure_count := Nat.not_le.mpr hfc
  have hchap : (processSyncSource env (some src) store).chapters =
      (syncTransaction src scraped store env.now).1 := by
    by_cases hins : 0 < (syncTransaction src scraped store env.now).2.1
    · simp [processSyncSource, hp, hurl, hscr, hfc', hok, hnot, hins]
    · simp [processSyncSource, hp, hurl, hscr, hfc', hok, hnot, hins]
  refine ⟨⟨hchap, ?_, ?_⟩, fun db inc newId now => ⟨rfl, rfl, rfl⟩⟩
  · intro c hc
    rw [hchap]
    exact syncTransaction_preserves src scraped store env.now c hc
  · intro hins
    constructor
    · simp [processSyncSource, hp, hurl, hscr, hfc', hok, hnot, hins]
    · simp [processSyncSource, hp, hurl, hscr, hfc', hok, hnot, hins,
        syncTransaction_failure_count]

/-- Witness for `downstream_failure_isolation` at the concrete
notify-failure run. -/
theorem downstream_failure_isolation_witness :
    (demoEnvNotifyFail.payloadOk = true ∧ demoEnvNotifyFail.urlValid = true ∧
      scraperDefined demoSource.source_name = true ∧
      demoSource.failure_count < MAX_CONSECUTIVE_FAILURES ∧
      demoEnvNotifyFail.scrape = .ok [demoScraped1] ∧
      demoEnvNotifyFail.notifyOk = false) ∧
    (((processSyncSource demoEnvNotifyFail (some demoSource) []).chapters =
        (syncTransaction demoSource [demoScraped1] [] demoEnvNotifyFail.now).1 ∧
      (∀ c ∈ ([] : List Chapter),
        c ∈ (processSyncSource demoEnvNotifyFail (some demoSource) []).chapters) ∧
      (0 < (syncTransaction demoSource [demoScraped1] []
          demoEnvNotifyFail.now).2.1 →
        (processSyncSource demoEnvNotifyFail (some demoSource) []).threw = true ∧
        (processSyncSource demoEnvNotifyFail (some demoSource) []).source.map
          SeriesSource.failure_count = some 1)) ∧
    (∀ (db : CanonDB) (inc : CanonData) (newId : String) (now : Int),
      (processCanonicalize ⟨false⟩ db inc newId now).db =
        (processCanonicalize ⟨true⟩ db inc newId now).db ∧
      (processCanonicalize ⟨false⟩ db inc newId now).threw = false ∧
      (processCanonicalize ⟨false⟩ db inc newId now).broadcastEmitted = false)) :=
  ⟨⟨rfl, rfl, by decide, by decide, rfl, rfl⟩,
    downstream_failure_isolation demoEnvNotifyFail demoSource [] [demoScraped1]
      rfl rfl (by decide) (by decide) rfl rfl⟩

/-! ## Invalid job payloads (C10) -/

/-- A sync environment whose payload fails schema validation. -/
def demoEnvBadPayload : SyncEnv :=
  { payloadOk := false, urlValid := true, scrape := .ok [], notifyOk := true
    now := 1000 }

/-- A notification environment whose payload fails schema validation. -/
def demoNotifEnvBad : NotifEnv :=
  { payloadOk := false, seriesTitle := some "Demo", subscribers := ["u1"]
    now := 1000 }

/-- Counterexample to claim C10 as stated: a sync job whose payload
fails schema validation throws (`throw new Error`), and since the sync
queue is configured with 3 attempts, the queue retries the failed
attempt — the job is not terminal on its first failure.  No persisted
state changes. -/
theorem invalid_payload_sync_retries_counterexample :
    demoEnvBadPayload.payloadOk = false ∧
    (processSyncSource demoEnvBadPayload (some demoSource) []).threw = true ∧
    (processSyncSource demoEnvBadPayload (some demoSource) []).source =
      some demoSource ∧
    (processSyncSource demoEnvBadPayload (some demoSource) []).chapters = [] ∧
    queueWillRetry 1 syncQueueAttempts true = true := by
  refine ⟨rfl, rfl, by decide, rfl, by decide⟩

/-- Claim C10 (amended).  A job whose payload fails schema validation
changes no persisted state in either worker; the notification worker
treats it as terminal (it returns without throwing, so no retry), while
the sync worker throws, and under the queue's retry policy (3 attempts)
the invalid job is retried while attempts remain before it becomes
terminal. -/
theorem invalid_payload_behavior (nenv : NotifEnv) (store : List Notification)
    (p : NotifPayload) (senv : SyncEnv) (src? : Option SeriesSource)
    (ch : List Chapter) (hn : nenv.payloadOk = false)
    (hs : senv.payloadOk = false) :
    (processNotification nenv store p).1 = store ∧
    (processNotification nenv store p).2 = false ∧
    (processSyncSource senv src? ch).source = src? ∧
    (processSyncSource senv src? ch).chapters = ch ∧
    (processSyncSource senv src? ch).threw = true ∧
    (∀ made, queueWillRetry made syncQueueAttempts true = true ↔
      made < syncQueueAttempts) := by
  refine ⟨?_, ?_, ?_, ?_, ?_, ?_⟩
  · simp [processNotification, hn]
  · simp [processNotification, hn]
  · simp [processSyncSource, hs]
  · simp [processSyncSource, hs]
  · simp [processSyncSource, hs]
  · intro made; simp [queueWillRetry]

/-- Witness for `invalid_payload_behavior` at concrete invalid jobs. -/
theorem invalid_payload_behavior_witness :
    (demoNotifEnvBad.payloadOk = false ∧ demoEnvBadPayload.payloadOk = false) ∧
    ((processNotification demoNotifEnvBad []
        { seriesId := "se1", sourceId := "ss1", newChapterCount := 2
          jobId := "j1" }).1 = [] ∧
      (processNotification demoNotifEnvBad []
        { seriesId := "se1", sourceId := "ss1", newChapterCount := 2
          jobId := "j1" }).2 = false ∧
      (processSyncSource demoEnvBadPayload (some demoSource) []).source =
        some demoSource ∧
      (processSyncSource demoEnvBadPayload (some demoSource) []).chapters = [] ∧
      (processSyncSource demoEnvBadPayload (some demoSource) []).threw = true ∧
      (∀ made, queueWillRetry made syncQueueAttempts true = true ↔
        made < syncQueueAttempts)) :=
  ⟨⟨rfl, rfl⟩,
    invalid_payload_behavior demoNotifEnvBad []
      { seriesId := "se1", sourceId := "ss1", newChapterCount := 2
        jobId := "j1" }
      demoEnvBadPayload (some demoSource) [] rfl rfl⟩

/-! ## Notification deduplication (C6) -/

/-- A notification payload used in concrete evaluations. -/
def demoPayload : NotifPayload :=
  { seriesId := "se1", sourceId := "ss1", newChapterCount := 2, jobId := "j1" }

theorem if_isEmpty_eq {α : Type} (t : List α) :
    (if t.isEmpty then ([] : List α) else t) = t := by
  cases t <;> simp

theorem processNotification_fst (env : NotifEnv) (store : List Notification)
    (p : NotifPayload) :
    (processNotification env store p).1 = store ++ notifCreated env store p ∧
    (notifCreated env store p = [] ∨
      ∃ title, env.seriesTitle = some title ∧
        notifCreated env store p = notifToCreate env store p title) := by
  have key : (processNotification env store p).1 = store ∧ notifCreated env store p = [] ∨
      ∃ title, env.seriesTitle = some title ∧
        (processNotification env store p).1 = store ++ notifToCreate env store p title ∧
        notifCreated env store p = notifToCreate env store p title := by
    cases hpo : env.payloadOk with
    | false =>
        exact Or.inl ⟨by simp [processNotification, hpo],
          by simp [notifCreated, processNotification, hpo, List.drop_length]⟩
    | true =>
      cases hst : env.seriesTitle with
      | none =>
          exact Or.inl ⟨by simp [processNotification, hpo, hst],
            by simp [notifCreated, processNotification, hpo, hst, List.drop_length]⟩
      | some title =>
        by_cases hsub : env.subscribers.isEmpty
        · exact Or.inl ⟨by simp [processNotification, hpo, hst, hsub],
            by simp [notifCreated, processNotification, hpo, hst, hsub,
              List.drop_length]⟩
        · refine Or.inr ⟨title, rfl, ?_, ?_⟩
          · by_cases ht : (notifToCreate env store p title).isEmpty
            · have ht' : notifToCreate env store p title = [] :=
                List.isEmpty_iff.mp ht
              simp [processNotification, hpo, hst, hsub, ht, ht']
            · simp [processNotification, hpo, hst, hsub, ht]
          · by_cases ht : (notifToCreate env store p title).isEmpty
            · have ht' : notifToCreate env store p title = [] :=
                List.isEmpty_iff.mp ht
              simp [notifCreated, processNotification, hpo, hst, hsub, ht, ht',
                List.drop_length]
            · simp [notifCreated, processNotification, hpo, hst, hsub, ht,
                List.drop_left]
  rcases key with ⟨h1, h2⟩ | ⟨title, hst, h1, h2⟩
  · exact ⟨by simp [h1, h2], Or.inl h2⟩
  · exact ⟨by rw [h1, h2], Or.inr ⟨title, hst, h2⟩⟩

theorem notifToCreate_users (env : NotifEnv) (store : List Notification)
    (p : NotifPayload) (title : String) :
    (notifToCreate env store p title).map (·.user_id) =
      env.subscribers.filter
        (fun u => !(alreadyNotifiedUsers env store p).contains u) := by
  rw [notifToCreate, List.map_map]
  exact List.map_id'' (fun u => rfl) _

theorem mem_alreadyNotifiedUsers (env : NotifEnv) (store : List Notification)
    (p : NotifPayload) (n : Notification) (hn : n ∈ store)
    (h1 : n.series_id = p.seriesId) (h2 : n.type = "NEW_CHAPTER")
    (h3 : env.now - NOTIF_DEDUP_WINDOW_MS ≤ n.created_at) :
    n.user_id ∈ alreadyNotifiedUsers env store p := by
  refine List.mem_map_of_mem _ (List.mem_filter.mpr ⟨hn, ?_⟩)
  simp [h1, h2, h3]

theorem not_mem_created_of_already (env : NotifEnv) (store : List Notification)
    (p : NotifPayload) (u : String)
    (hmem : u ∈ alreadyNotifiedUsers env store p) :
    u ∉ (notifCreated env store p).map (·.user_id) := by
  rcases (processNotification_fst env store p).2 with h | ⟨title, _, h⟩
  · simp [h]
  · rw [h, notifToCreate_users]
    intro hu
    have hpred := (List.mem_filter.mp hu).2
    simp only [Bool.not_eq_true'] at hpred
    exact (by simpa using hpred : u ∉ alreadyNotifiedUsers env store p) hmem

/-- Claim C6.  For every series, the notification worker creates at most
one `NEW_CHAPTER` notification per subscribed user (the created batch
has pairwise-distinct user ids, given that the subscriber list — one
library entry per user — has no duplicates); users who already have a
`NEW_CHAPTER` notification for the series created inside the trailing
5-minute window are excluded from the bulk insert; and re-running the
worker with the same payload inside the window creates zero additional
notifications for any user notified by the first run. -/
theorem notification_dedup_window (env₁ env₂ : NotifEnv)
    (store : List Notification) (p : NotifPayload)
    (hnd : env₁.subscribers.Nodup)
    (hwin : env₂.now - env₁.now < NOTIF_DEDUP_WINDOW_MS) :
    ((notifCreated env₁ store p).map (·.user_id)).Nodup ∧
    (∀ n ∈ store, n.series_id = p.seriesId → n.type = "NEW_CHAPTER" →
      env₁.now - NOTIF_DEDUP_WINDOW_MS ≤ n.created_at →
      n.user_id ∉ (notifCreated env₁ store p).map (·.user_id)) ∧
    (∀ u ∈ (notifCreated env₁ store p).map (·.user_id),
      u ∉ (notifCreated env₂ ((processNotification env₁ store p).1) p).map
        (·.user_id)) := by
  refine ⟨?_, ?_, ?_⟩
  · rcases (processNotification_fst env₁ store p).2 with h | ⟨title, _, h⟩
    · simp [h]
    · rw [h, notifToCreate_users]
      exact hnd.filter _
  · intro n hn h1 h2 h3
    exact not_mem_created_of_already env₁ store p n.user_id
      (mem_alreadyNotifiedUsers env₁ store p n hn h1 h2 h3)
  · intro u hu
    -- the notification created for `u` by the first run
    rcases (processNotification_fst env₁ store p).2 with h | ⟨title, _, h⟩
    · rw [h] at hu; simp at hu
    · rw [h] at hu
      simp only [List.mem_map] at hu
      obtain ⟨n₁, hn₁, hun⟩ := hu
      have hn₁' := hn₁
      simp only [notifToCreate, List.mem_map] at hn₁'
      obtain ⟨u', hu'mem, hn₁eq⟩ := hn₁'
      -- `n₁` sits in the store the second run reads
      have hn₁store : n₁ ∈ (processNotification env₁ store p).1 := by
        rw [(processNotification_fst env₁ store p).1, h]
        exact List.mem_append_right _ hn₁
      have hprops : n₁.series_id = p.seriesId ∧ n₁.type = "NEW_CHAPTER" ∧
          n₁.created_at = env₁.now := by
        rw [← hn₁eq]; exact ⟨rfl, rfl, rfl⟩
      have halready : u ∈ alreadyNotifiedUsers env₂
          ((processNotification env₁ store p).1) p := by
        rw [← hun]
        exact mem_alreadyNotifiedUsers env₂ _ p n₁ hn₁store hprops.1 hprops.2.1
          (by rw [hprops.2.2]; omega)
      exact not_mem_created_of_already env₂ _ p u halready

/-- Witness for `notification_dedup_window`: two subscribed users, an
empty store, two runs 60 seconds apart. -/
theorem notification_dedup_window_witness :
    ((["u1", "u2"] : List String).Nodup ∧
      (1060000 : Int) - 1000000 < NOTIF_DEDUP_WINDOW_MS) ∧
    (((notifCreated
        { payloadOk := true, seriesTitle := some "Demo"
          subscribers := ["u1", "u2"], now := 1000000 } [] demoPayload).map
        (·.user_id)).Nodup ∧
      (∀ n ∈ ([] : List Notification),
        n.series_id = demoPayload.seriesId → n.type = "NEW_CHAPTER" →
        (1000000 : Int) - NOTIF_DEDUP_WINDOW_MS ≤ n.created_at →
        n.user_id ∉ (notifCreated
          { payloadOk := true, seriesTitle := some "Demo"
            subscribers := ["u1", "u2"], now := 1000000 } [] demoPayload).map
          (·.user_id)) ∧
      (∀ u ∈ (notifCreated
          { payloadOk := true, seriesTitle := some "Demo"
            subscribers := ["u1", "u2"], now := 1000000 } [] demoPayload).map
          (·.user_id),
        u ∉ (notifCreated
          { payloadOk := true, seriesTitle := some "Demo"
            subscribers := ["u1", "u2"], now := 1060000 }
          ((processNotification
            { payloadOk := true, seriesTitle := some "Demo"
              subscribers := ["u1", "u2"], now := 1000000 } [] demoPayload).1)
          demoPayload).map (·.user_id))) :=
  ⟨⟨by decide, by decide⟩,
    notification_dedup_window
      { payloadOk := true, seriesTitle := some "Demo"
        subscribers := ["u1", "u2"], now := 1000000 }
      { payloadOk := true, seriesTitle := some "Demo"
        subscribers := ["u1", "u2"], now := 1060000 }
      [] demoPayload (by decide) (by decide)⟩

/-! ## Canonicalization merge (C3) -/

/-- An existing canonical Series with every scalar field populated. -/
def demoSeries : Series :=
  { id := "s1", title := "Solo", mangadex_id := some "md1"
    alternative_titles := ["Alt1"], description := some "desc"
    cover_url := some "cov", type := "manga", status := some "ongoing"
    genres := ["action"], content_rating := some "safe" }

/-- A matching incoming candidate with every field populated. -/
def demoIncoming : CanonData :=
  { title := "Solo", source_name := "mangadex", source_id := "md1"
    source_url := "https://mangadex.org/title/md1", mangadex_id := some "md1"
    alternative_titles := ["Alt2"], description := some "newdesc"
    cover_url := some "newcov", type := "manga", status := some "completed"
    genres := ["drama"], content_rating := some "erotica"
    confidence := some 100 }

/-- A database holding `demoSeries` and no source links. -/
def demoDB : CanonDB := { series := [demoSeries], sources := [] }

/-- Counterexample to claim C3 as stated: a canonicalization job that
matches an existing Series whose content rating is the non-null
`"safe"` overwrites it with the incoming `"erotica"` — the merge line
is `content_rating: content_rating || series.content_rating`, so the
incoming value wins whenever it is non-empty, and the overwritten value
is what the transaction persists. -/
theorem merge_content_rating_counterexample :
    demoSeries.content_rating = some "safe" ∧
    isEmptyJS demoSeries.content_rating = false ∧
    demoIncoming.content_rating = some "erotica" ∧
    matchSeries demoDB demoIncoming = some demoSeries ∧
    (canonTransaction demoDB demoIncoming "new1" 2000).1.series.map
      Series.content_rating = [some "erotica"] := by
  refine ⟨rfl, rfl, rfl, by decide, by decide⟩

/-- Claim C3 (amended).  On a match, the merge fills external catalog
id, description and status only where the existing value is empty, and
the genre set is replaced wholesale exactly when the existing genre set
is empty; but — against the original claim — the content rating is
taken from the incoming candidate whenever the incoming value is
non-empty (it falls back to the existing value only when the candidate
carries none), so an existing non-null content rating can be
overwritten.  The series the transaction persists for a matched job is
exactly this merge applied to the match. -/
theorem merge_fill_only_empty (series : Series) (inc : CanonData)
    (alts : List String) :
    ((isEmptyJS series.mangadex_id = false →
        (mergeSeriesUpdate series inc alts).mangadex_id = series.mangadex_id) ∧
      (isEmptyJS series.mangadex_id = true →
        (mergeSeriesUpdate series inc alts).mangadex_id = inc.mangadex_id)) ∧
    ((isEmptyJS series.description = false →
        (mergeSeriesUpdate series inc alts).description = series.description) ∧
      (isEmptyJS series.description = true →
        (mergeSeriesUpdate series inc alts).description = inc.description)) ∧
    ((isEmptyJS series.status = false →
        (mergeSeriesUpdate series inc alts).status = series.status) ∧
      (isEmptyJS series.status = true →
        (mergeSeriesUpdate series inc alts).status = inc.status)) ∧
    ((series.genres ≠ [] →
        (mergeSeriesUpdate series inc alts).genres = series.genres) ∧
      (series.genres = [] →
        (mergeSeriesUpdate series inc alts).genres = inc.genres)) ∧
    ((isEmptyJS inc.content_rating = false →
        (mergeSeriesUpdate series inc alts).content_rating =
          inc.content_rating) ∧
      (isEmptyJS inc.content_rating = true →
        (mergeSeriesUpdate series inc alts).content_rating =
          series.content_rating)) ∧
    (∀ (db : CanonDB) (newId : String) (now : Int) (s : Series),
      matchSeries db inc = some s →
      (canonTransaction db inc newId now).2.1 =
        mergeSeriesUpdate s inc (firstOccurrences
          (s.alternative_titles ++ inc.alternative_titles ++ [inc.title]))) := by
  refine ⟨⟨?_, ?_⟩, ⟨?_, ?_⟩, ⟨?_, ?_⟩, ⟨?_, ?_⟩, ⟨?_, ?_⟩, ?_⟩
  · intro h; simp [mergeSeriesUpdate, orElseJS, h]
  · intro h; simp [mergeSeriesUpdate, orElseJS, h]
  · intro h; simp [mergeSeriesUpdate, orElseJS, h]
  · intro h; simp [mergeSeriesUpdate, orElseJS, h]
  · intro h; simp [mergeSeriesUpdate, orElseJS, h]
  · intro h; simp [mergeSeriesUpdate, orElseJS, h]
  · intro h
    simp [mergeSeriesUpdate, List.length_pos.mpr h]
  · intro h; simp [mergeSeriesUpdate, h]
  · intro h; simp [mergeSeriesUpdate, orElseJS, h]
  · intro h; simp [mergeSeriesUpdate, orElseJS, h]
  · intro db newId now s hmatch
    simp [canonTransaction, hmatch]

/-- Witness for `merge_fill_only_empty` at the fully populated concrete
series and candidate. -/
theorem merge_fill_only_empty_witness :
    (mergeSeriesUpdate demoSeries demoIncoming ["A"]).mangadex_id =
      demoSeries.mangadex_id ∧
    (mergeSeriesUpdate demoSeries demoIncoming ["A"]).description =
      demoSeries.description ∧
    (mergeSeriesUpdate demoSeries demoIncoming ["A"]).status =
      demoSeries.status ∧
    (mergeSeriesUpdate demoSeries demoIncoming ["A"]).genres =
      demoSeries.genres ∧
    (mergeSeriesUpdate demoSeries demoIncoming ["A"]).content_rating =
      demoIncoming.content_rating ∧
    (canonTransaction demoDB demoIncoming "new1" 2000).2.1 =
      mergeSeriesUpdate demoSeries demoIncoming (firstOccurrences
        (demoSeries.alternative_titles ++ demoIncoming.alternative_titles ++
          [demoIncoming.title])) := by
  have h := merge_fill_only_empty demoSeries demoIncoming ["A"]
  exact ⟨h.1.1 rfl, h.2.1.1 rfl, h.2.2.1.1 rfl, h.2.2.2.1.1 (by decide),
    h.2.2.2.2.1.1 rfl,
    h.2.2.2.2.2 demoDB "new1" 2000 demoSeries (by decide)⟩

/-! ## Health/backpressure gate (C7) -/

theorem workersOffline_of_no_heartbeat (r : Bool) (now : Int) :
    areWorkersOnline r none now = false := by
  cases r <;> simp [areWorkersOnline]

theorem workersOffline_of_stale (r : Bool) (t now : Int)
    (h : 15000 < now - t) :
    areWorkersOnline r (some t) now = false := by
  have hlt : ¬ (now - t < 15000) := by omega
  cases r
  · simp [areWorkersOnline]
  · simp [areWorkersOnline, hlt]

/-- Claim C7.  For every discovery-eligible search request, if the
heartbeat key is absent or its timestamp is more than 15 seconds old,
or the discovery queue's combined waiting+active+delayed count is not
below the 5000 saturation threshold, the request path enqueues no
discovery job and returns the temporarily-unavailable status together
with the already-known local results; in particular a heartbeat older
than 15 seconds makes the liveness predicate false and the gate report
unavailable even when the queue depth is 0. -/
theorem health_gate_unavailable (redisReady : Bool) (hb : Option Int)
    (now : Int) (w a d : Nat) (enqueueOk : Bool) (res : List String)
    (h : (hb = none ∨ ∃ t, hb = some t ∧ 15000 < now - t) ∨
      5000 ≤ w + a + d) :
    searchDiscoveryGate false redisReady hb now w a d enqueueOk res =
      { status := SearchStatus.resolvingUnavailable, results := res
        enqueued := false } ∧
    (∀ t : Int, 15000 < now - t →
      areWorkersOnline redisReady (some t) now = false ∧
      searchDiscoveryGate false redisReady (some t) now 0 0 0 enqueueOk res =
        { status := SearchStatus.resolvingUnavailable, results := res
          enqueued := false }) := by
  constructor
  · rcases h with (hnone | ⟨t, rfl, ht⟩) | hq
    · subst hnone
      simp [searchDiscoveryGate, workersOffline_of_no_heartbeat]
    · simp [searchDiscoveryGate, workersOffline_of_stale redisReady t now ht]
    · have hqh : isQueueHealthy w a d 5000 = false := by
        simp [isQueueHealthy]; omega
      simp [searchDiscoveryGate, hqh]
  · intro t ht
    refine ⟨workersOffline_of_stale redisReady t now ht, ?_⟩
    simp [searchDiscoveryGate, workersOffline_of_stale redisReady t now ht]

/-- Witness for `health_gate_unavailable`: heartbeat 20 seconds old,
queue depth 0. -/
theorem health_gate_unavailable_witness :
    (((some (0 : Int) : Option Int) = none ∨
        ∃ t, (some (0 : Int) : Option Int) = some t ∧
          15000 < (20000 : Int) - t) ∨
      5000 ≤ 0 + 0 + 0) ∧
    (searchDiscoveryGate false true (some 0) 20000 0 0 0 true ["loc1"] =
      { status := SearchStatus.resolvingUnavailable, results := ["loc1"]
        enqueued := false } ∧
    (∀ t : Int, 15000 < (20000 : Int) - t →
      areWorkersOnline true (some t) 20000 = false ∧
      searchDiscoveryGate false true (some t) 20000 0 0 0 true ["loc1"] =
        { status := SearchStatus.resolvingUnavailable, results := ["loc1"]
          enqueued := false })) :=
  ⟨Or.inl (Or.inr ⟨0, rfl, by decide⟩),
    health_gate_unavailable true (some 0) 20000 0 0 0 true ["loc1"]
      (Or.inl (Or.inr ⟨0, rfl, by decide⟩))⟩

/-! ## The master scheduler (C8) -/

/-- Three HOT-tier Source Records, all due (no `next_check_at`). -/
def demoSchedSources : List SeriesSource :=
  [{ demoSource with id := "a", sync_priority := "HOT" },
   { demoSource with id := "b", sync_priority := "HOT" },
   { demoSource with id := "c", sync_priority := "HOT" }]

theorem list_id_inj (l : List SeriesSource)
    (h : (l.map (·.id)).Nodup) :
    ∀ a ∈ l, ∀ b ∈ l, a.id = b.id → a = b := by
  induction l with
  | nil => intro a ha; exact absurd ha (List.not_mem_nil a)
  | cons x xs ih =>
      simp only [List.map_cons, List.nodup_cons] at h
      intro a ha b hb hab
      rcases List.mem_cons.mp ha with rfl | ha' <;>
        rcases List.mem_cons.mp hb with rfl | hb'
      · rfl
      · exact absurd (by rw [hab]; exact List.mem_map_of_mem _ hb') h.1
      · exact absurd (by rw [← hab]; exact List.mem_map_of_mem _ ha') h.1
      · exact ih h.2 a ha' b hb' hab

theorem mem_bucketIds_iff (sources sel : List SeriesSource)
    (hnd : (sources.map (·.id)).Nodup) (hsub : List.Sublist sel sources)
    (s : SeriesSource) (hs : s ∈ sources) (tier : String) :
    s.id ∈ bucketIds sel tier ↔
      s ∈ sel ∧ bucketTier s.sync_priority = tier := by
  unfold bucketIds
  constructor
  · intro h
    obtain ⟨x, hx, hxid⟩ := List.mem_map.mp h
    obtain ⟨hxsel, hxtier⟩ := List.mem_filter.mp hx
    have hxeq : x = s := list_id_inj sources hnd x (hsub.subset hxsel) s hs hxid
    subst hxeq
    exact ⟨hxsel, by simpa using hxtier⟩
  · rintro ⟨hssel, htier⟩
    exact List.mem_map_of_mem _ (List.mem_filter.mpr ⟨hssel, by simp [htier]⟩)

theorem bucketTier_cases (p : String) :
    bucketTier p = "HOT" ∨ bucketTier p = "WARM" ∨ bucketTier p = "COLD" := by
  unfold bucketTier
  by_cases h1 : p = "HOT"
  · subst h1; simp
  · by_cases h2 : p = "WARM"
    · subst h2; simp
    · by_cases h3 : p = "COLD"
      · subst h3; simp
      · have e1 : (p == "HOT") = false := beq_eq_false_iff_ne.mpr h1
        have e2 : (p == "WARM") = false := beq_eq_false_iff_ne.mpr h2
        have e3 : (p == "COLD") = false := beq_eq_false_iff_ne.mpr h3
        simp [e1, e2, e3]

theorem interval_bucket (p : String) :
    (SYNC_INTERVALS (bucketTier p)).getD (24 * 60 * 60 * 1000) =
      schedulerSpecInterval p := by
  by_cases h1 : p = "HOT"
  · subst h1; rfl
  · by_cases h2 : p = "WARM"
    · subst h2; rfl
    · by_cases h3 : p = "COLD"
      · subst h3; rfl
      · have e1 : (p == "HOT") = false := beq_eq_false_iff_ne.mpr h1
        have e2 : (p == "WARM") = false := beq_eq_false_iff_ne.mpr h2
        have e3 : (p == "COLD") = false := beq_eq_false_iff_ne.mpr h3
        simp [bucketTier, SYNC_INTERVALS, schedulerSpecInterval, e1, e2, e3]

theorem guarded_map_eq (db : List SeriesSource) (ids : List String)
    (u : SeriesSource → SeriesSource) :
    (if ids.isEmpty then db
      else db.map (fun s => if ids.contains s.id then u s else s)) =
      db.map (fun s => if ids.contains s.id then u s else s) := by
  by_cases h : ids.isEmpty
  · have hnil : ids = [] := List.isEmpty_iff.mp h
    subst hnil
    simp
  · simp [h]

/-- Claim C8.  Every scheduler run equals the specification-side
description `schedulerSpec` (given globally distinct record ids): each
selected due source — at most 50 — yields exactly one job keyed
`sync-<sourceId>-<runTimestamp>` with priority rank 1 for HOT, 2 for
WARM and 3 for COLD or any unknown tier, and its `next_check_at`
becomes now plus its tier interval (HOT 15 minutes, WARM 2 hours, COLD
and unknown tiers 24 hours), while unselected records are untouched. -/
theorem scheduler_matches_spec (sources : List SeriesSource) (now : Int)
    (hnd : (sources.map (·.id)).Nodup) :
    runMasterScheduler sources now = schedulerSpec sources now := by
  unfold runMasterScheduler schedulerSpec
  set sel := (sources.filter (dueForCheck now)).take 50 with hseldef
  have hsub : List.Sublist sel sources :=
    (List.take_sublist _ _).trans (List.filter_sublist _)
  by_cases hempty : sel.isEmpty
  · have hsel0 : sel = [] := List.isEmpty_iff.mp hempty
    rw [hsel0]
    simp
  · simp only [hempty, if_false, Bool.false_eq_true]
    refine congrArg (Prod.mk _) ?_
    simp only [List.foldl_cons, List.foldl_nil]
    rw [guarded_map_eq, guarded_map_eq, guarded_map_eq, List.map_map,
      List.map_map]
    refine List.map_congr_left ?_
    intro s hs
    have hmb := mem_bucketIds_iff sources sel hnd hsub s hs
    by_cases hssel : s ∈ sel
    · -- the record is selected: it is updated exactly in its own bucket
      have hid : s.id ∈ sel.map (·.id) := List.mem_map_of_mem _ hssel
      have hupd : ∀ tier, bucketTier s.sync_priority = tier →
          s.id ∈ bucketIds sel tier :=
        fun tier htier => (hmb tier).mpr ⟨hssel, htier⟩
      have hnotupd : ∀ tier, bucketTier s.sync_priority ≠ tier →
          s.id ∉ bucketIds sel tier :=
        fun tier htier hmem => htier ((hmb tier).mp hmem).2
      rcases bucketTier_cases s.sync_priority with ht | ht | ht
      · have cH := hupd "HOT" ht
        have cW := hnotupd "WARM" (by rw [ht]; decide)
        have cC := hnotupd "COLD" (by rw [ht]; decide)
        simp [Function.comp, cH, cW, cC, hid,
          ← interval_bucket s.sync_priority, ht]
      · have cH := hnotupd "HOT" (by rw [ht]; decide)
        have cW := hupd "WARM" ht
        have cC := hnotupd "COLD" (by rw [ht]; decide)
        simp [Function.comp, cH, cW, cC, hid,
          ← interval_bucket s.sync_priority, ht]
      · have cH := hnotupd "HOT" (by rw [ht]; decide)
        have cW := hnotupd "WARM" (by rw [ht]; decide)
        have cC := hupd "COLD" ht
        simp [Function.comp, cH, cW, cC, hid,
          ← interval_bucket s.sync_priority, ht]
    · -- the record is not selected: every bucket leaves it unchanged
      have hnot : ∀ tier, s.id ∉ bucketIds sel tier :=
        fun tier hmem => hssel ((hmb tier).mp hmem).1
      have hid : s.id ∉ sel.map (·.id) := by
        intro hcon
        obtain ⟨x, hx, hxid⟩ := List.mem_map.mp hcon
        exact hssel (list_id_inj sources hnd x (hsub.subset hx) s hs hxid ▸ hx)
      simp [Function.comp, hnot, hid]

/-- Witness for `scheduler_matches_spec`: three HOT-tier due sources
and nothing else; the run enqueues exactly 3 jobs, each with priority
rank 1 and key `sync-<id>-<timestamp>`, and sets each source's
`next_check_at` to now + 15 minutes. -/
theorem scheduler_matches_spec_witness :
    ((demoSchedSources.map (·.id)).Nodup) ∧
    runMasterScheduler demoSchedSources 1000 =
      schedulerSpec demoSchedSources 1000 ∧
    (runMasterScheduler demoSchedSources 1000).1.length = 3 ∧
    (runMasterScheduler demoSchedSources 1000).1.map (·.priority) =
      [1, 1, 1] ∧
    (runMasterScheduler demoSchedSources 1000).1.map (·.jobId) =
      ["sync-a-1000", "sync-b-1000", "sync-c-1000"] ∧
    (runMasterScheduler demoSchedSources 1000).2.map (·.next_check_at) =
      [some (1000 + 15 * 60 * 1000), some (1000 + 15 * 60 * 1000),
        some (1000 + 15 * 60 * 1000)] :=
  ⟨by decide,
    scheduler_matches_spec demoSchedSources 1000 (by decide),
    by decide, by decide, by decide, by decide⟩

/-! ## Discovery ranking and enqueue (C9) -/

theorem firstOccurrencesFrom_sublist (l : List String) :
    ∀ seen, List.Sublist (firstOccurrencesFrom seen l) l := by
  induction l with
  | nil => intro seen; simp [firstOccurrencesFrom]
  | cons k ks ih =>
      intro seen
      by_cases h : seen.contains k
      · simp only [firstOccurrencesFrom, h, if_true]
        exact (ih seen).trans (List.sublist_cons_self _ _)
      · simp only [firstOccurrencesFrom, h, if_false]
        exact (ih (seen ++ [k])).cons₂ k

theorem mem_firstOccurrencesFrom (l : List String) :
    ∀ seen k, k ∈ firstOccurrencesFrom seen l ↔ k ∈ l ∧ k ∉ seen := by
  induction l with
  | nil => intro seen k; simp [firstOccurrencesFrom]
  | cons x xs ih =>
      intro seen k
      by_cases h : seen.contains x
      · have hx : x ∈ seen := by simpa using h
        rw [firstOccurrencesFrom, if_pos h, ih]
        simp only [List.mem_cons]
        constructor
        · rintro ⟨hk, hns⟩; exact ⟨Or.inr hk, hns⟩
        · rintro ⟨rfl | hk, hns⟩
          · exact absurd hx hns
          · exact ⟨hk, hns⟩
      · have hx : x ∉ seen := by simpa using h
        rw [firstOccurrencesFrom, if_neg h]
        simp only [List.mem_cons, ih, List.mem_append, List.mem_singleton]
        constructor
        · rintro (rfl | ⟨hk, hns⟩)
          · exact ⟨Or.inl rfl, hx⟩
          · exact ⟨Or.inr hk, fun hc => hns (Or.inl hc)⟩
        · rintro ⟨rfl | hk, hns⟩
          · exact Or.inl rfl
          · by_cases hkx : k = x
            · exact Or.inl hkx
            · refine Or.inr ⟨hk, ?_⟩
              rintro (hc | hc | hc)
              · exact hns hc
              · exact hkx hc
              · exact (List.not_mem_nil k) hc

theorem firstOccurrencesFrom_nodup (l : List String) :
    ∀ seen, (firstOccurrencesFrom seen l).Nodup := by
  induction l with
  | nil => intro seen; simp [firstOccurrencesFrom]
  | cons x xs ih =>
      intro seen
      by_cases h : seen.contains x
      · rw [firstOccurrencesFrom, if_pos h]
        exact ih seen
      · rw [firstOccurrencesFrom, if_neg h]
        refine List.nodup_cons.mpr ⟨fun hmem => ?_, ih (seen ++ [x])⟩
        have := ((mem_firstOccurrencesFrom xs (seen ++ [x]) x).mp hmem).2
        exact this (by simp)

theorem filterMap_find_ids (cs : List Candidate) :
    ∀ keys : List String,
      (∀ k ∈ keys, k ∈ cs.map (·.mangadex_id)) →
      (keys.filterMap
          (fun k => cs.reverse.find? (fun c => c.mangadex_id == k))).map
        (·.mangadex_id) = keys := by
  intro keys
  induction keys with
  | nil => intro _; simp
  | cons k ks ih =>
      intro hall
      obtain ⟨c, hc, hcid⟩ := List.mem_map.mp (hall k (List.mem_cons_self _ _))
      have hsome : (cs.reverse.find? (fun c => c.mangadex_id == k)).isSome := by
        rw [List.find?_isSome]
        exact ⟨c, List.mem_reverse.mpr hc, by simp [hcid]⟩
      obtain ⟨c', hfind⟩ := Option.isSome_iff_exists.mp hsome
      have hc'id : c'.mangadex_id = k := by
        simpa using List.find?_some hfind
      simp only [List.filterMap_cons, hfind, List.map_cons, hc'id,
        List.cons.injEq, true_and]
      exact ih (fun k' hk' => hall k' (List.mem_cons_of_mem _ hk'))

theorem mapDedupe_ids (cs : List Candidate) :
    (mapDedupe cs).map (·.mangadex_id) =
      firstOccurrences (cs.map (·.mangadex_id)) := by
  unfold mapDedupe
  exact filterMap_find_ids cs _
    (fun k hk => (firstOccurrencesFrom_sublist _ []).subset hk)

theorem rankCandidates_ids (cs : List Candidate) :
    (rankCandidates cs).map (·.cand.mangadex_id) =
      (mapDedupe cs).map (·.mangadex_id) := by
  unfold rankCandidates
  rw [List.map_map]
  have h2 : (mapDedupe cs).enum.map Prod.snd = mapDedupe cs :=
    List.enum_map_snd _
  calc (mapDedupe cs).enum.map
        ((fun r : RankedCandidate => r.cand.mangadex_id) ∘ fun ic =>
          { cand := ic.2, confidence := 100
            score := (mapDedupe cs).length - ic.1 })
      = ((mapDedupe cs).enum.map Prod.snd).map (·.mangadex_id) := by
        rw [List.map_map]; rfl
    _ = (mapDedupe cs).map (·.mangadex_id) := by rw [h2]

theorem rankCandidates_scores (cs : List Candidate) :
    (rankCandidates cs).map (·.score) =
      (List.range (mapDedupe cs).length).map
        (fun i => (mapDedupe cs).length - i) := by
  unfold rankCandidates
  rw [List.map_map]
  have h1 : (mapDedupe cs).enum.map Prod.fst =
      List.range (mapDedupe cs).length := List.enum_map_fst _
  calc (mapDedupe cs).enum.map
        ((fun r : RankedCandidate => r.score) ∘ fun ic =>
          { cand := ic.2, confidence := 100
            score := (mapDedupe cs).length - ic.1 })
      = ((mapDedupe cs).enum.map Prod.fst).map
          (fun i => (mapDedupe cs).length - i) := by
        rw [List.map_map]; rfl
    _ = (List.range (mapDedupe cs).length).map
          (fun i => (mapDedupe cs).length - i) := by rw [h1]

theorem pairwise_gt_range_sub (n : Nat) :
    ((List.range n).map (fun i => n - i)).Pairwise (· > ·) := by
  rw [List.pairwise_map, List.pairwise_iff_getElem]
  intro i j hi hj hij
  simp only [List.getElem_range]
  simp only [List.length_range] at hi hj
  omega

/-- Claim C9.  The discovery worker deduplicates the collected results
by external id before ranking (the ranked ids are the first occurrences
of the collected ids: pairwise distinct and an order-preserving
sublist of the original id sequence); each remaining candidate gets the
strictly descending positional score (no similarity recomputation); and
the enqueue loop emits exactly one canonicalization job per ranked
candidate under the stable key `canon_mangadex_<externalId>`, with job
priority 1 for `user_search`-triggered discovery and 10 for
`system_sync` — numerically lower, hence sooner, for `user_search`. -/
theorem discovery_rank_enqueue (cs : List Candidate) (trigger : Option String) :
    ((rankCandidates cs).map (·.cand.mangadex_id) =
      firstOccurrences (cs.map (·.mangadex_id))) ∧
    (firstOccurrences (cs.map (·.mangadex_id))).Nodup ∧
    List.Sublist (firstOccurrences (cs.map (·.mangadex_id)))
      (cs.map (·.mangadex_id)) ∧
    ((rankCandidates cs).map (·.score)).Pairwise (· > ·) ∧
    (checkSourceJobs cs trigger).length = (rankCandidates cs).length ∧
    (checkSourceJobs cs trigger).map (·.jobId) =
      (rankCandidates cs).map
        (fun r => "canon_mangadex_" ++ r.cand.mangadex_id) ∧
    (checkSourceJobs cs (some "user_search")).map (·.priority) =
      (rankCandidates cs).map (fun _ => 1) ∧
    (checkSourceJobs cs (some "system_sync")).map (·.priority) =
      (rankCandidates cs).map (fun _ => 10) ∧
    (1 : Nat) < 10 := by
  refine ⟨(rankCandidates_ids cs).trans (mapDedupe_ids cs),
    firstOccurrencesFrom_nodup _ [], firstOccurrencesFrom_sublist _ [],
    ?_, ?_, ?_, ?_, ?_, by omega⟩
  · rw [rankCandidates_scores]
    exact pairwise_gt_range_sub _
  · simp [checkSourceJobs]
  · unfold checkSourceJobs
    rw [List.map_map]
    rfl
  · unfold checkSourceJobs
    rw [List.map_map]
    rfl
  · unfold checkSourceJobs
    rw [List.map_map]
    rfl

end MangaPipeline
